import Mathlib

/-!
Shallow embedding of the Spotify recently-played ingestion lambda
(`get_spotify_api_data/lambda_function.py`, plus the near-duplicate
`lambda_spotify_get_user_recent_played.py`).

The pipeline is three steps composed by `lambda_handler`:
`get_spotify_token` → `get_recent_tracks` → `save_to_s3`.  Network
responses and storage outcomes are supplied by an explicit environment;
Python exceptions are modelled with `Except`, Python dynamic values with
`PyVal`, and the S3 bucket with an association list keyed by
bucket name and object key.
-/

set_option autoImplicit false

namespace SpotifyLambda

/-- Python dynamic values, as far as this program manipulates them:
`None`, booleans, integers, strings, lists and string-keyed dicts.
JSON response bodies decode into this type. -/
inductive PyVal where
  | null
  | bool (b : Bool)
  | int (n : Int)
  | str (s : String)
  | list (xs : List PyVal)
  | dict (entries : List (String × PyVal))
deriving Repr

/-- Python exceptions raised by this program: `KeyError` (whose `str` is
the repr of the key) and every other exception, carried by its message. -/
inductive PyExc where
  | keyError (k : String)
  | exc (msg : String)
deriving Repr, DecidableEq

/-- Python `type(v).__name__`, used in error messages. -/
def pyTypeName : PyVal → String
  | .null => "NoneType"
  | .bool _ => "bool"
  | .int _ => "int"
  | .str _ => "str"
  | .list _ => "list"
  | .dict _ => "dict"

/-- `isinstance(v, dict)`. -/
def PyVal.isDict : PyVal → Bool
  | .dict _ => true
  | _ => false

/-- First binding of key `k` in an association list (Python dicts cannot
hold duplicate keys, so this is plain dict lookup). -/
def assocGet : List (String × PyVal) → String → Option PyVal
  | [], _ => none
  | (k2, v) :: rest, k => if k2 = k then some v else assocGet rest k

/-- Python dict assignment `d[k] = x`: update in place when the key
exists, otherwise append at the end (insertion order preserved). -/
def assocSet : List (String × PyVal) → String → PyVal → List (String × PyVal)
  | [], k, x => [(k, x)]
  | (k2, v) :: rest, k, x =>
    if k2 = k then (k, x) :: rest else (k2, v) :: assocSet rest k x

/-- Python subscript `v[k]` for a string key: dict lookup, `KeyError`
when the key is missing, `TypeError` when `v` is not a dict. -/
def pySubscript (v : PyVal) (k : String) : Except PyExc PyVal :=
  match v with
  | .dict es =>
    match assocGet es k with
    | some x => .ok x
    | none => .error (.keyError k)
  | _ => .error (.exc ("\x27" ++ pyTypeName v ++ "\x27 object is not subscriptable"))

/-- Python `v.get(k, dflt)`: `AttributeError` when `v` is not a dict. -/
def pyGetDefault (v : PyVal) (k : String) (dflt : PyVal) : Except PyExc PyVal :=
  match v with
  | .dict es => .ok ((assocGet es k).getD dflt)
  | _ => .error (.exc ("\x27" ++ pyTypeName v ++ "\x27 object has no attribute \x27get\x27"))

/-- Python `len(v)`: `TypeError` on values without a length. -/
def pyLen (v : PyVal) : Except PyExc Nat :=
  match v with
  | .str s => .ok s.length
  | .list xs => .ok xs.length
  | .dict es => .ok es.length
  | _ => .error (.exc ("object of type \x27" ++ pyTypeName v ++ "\x27 has no len()"))

/-- Whether a dict value has key `k` (`False` on non-dicts). -/
def PyVal.hasKey (v : PyVal) (k : String) : Bool :=
  match v with
  | .dict es => (assocGet es k).isSome
  | _ => false

/-- Python `str(e)` for our exceptions: `str(KeyError(k))` is the repr
of the key, `str(Exception(m))` is `m`. -/
def pyStrExc : PyExc → String
  | .keyError k => "\x27" ++ k ++ "\x27"
  | .exc m => m

/-! ### `json.dumps`

`save_to_s3` serializes with `json.dumps(data, indent=2)` and the
handler's catch-all with plain `json.dumps`.  With `ensure_ascii=True`
(the default) characters outside `0x20`–`0x7e` are `\uXXXX`-escaped. -/

/-- Lowercase hexadecimal digit. -/
def hexDigit (n : Nat) : Char :=
  if n < 10 then Char.ofNat (48 + n) else Char.ofNat (87 + n)

/-- Four-lowercase-hex-digit rendering of `n % 0x10000`. -/
def hex4 (n : Nat) : String :=
  String.mk [hexDigit (n / 4096 % 16), hexDigit (n / 256 % 16),
             hexDigit (n / 16 % 16), hexDigit (n % 16)]

/-- `\uXXXX` escape of a code point, as a surrogate pair beyond the BMP. -/
def uEscape (c : Char) : String :=
  let n := c.toNat
  if n < 0x10000 then "\\u" ++ hex4 n
  else
    let m := n - 0x10000
    "\\u" ++ hex4 (0xd800 + m / 0x400) ++ "\\u" ++ hex4 (0xdc00 + m % 0x400)

/-- Escaping of one character inside a JSON string, following CPython's
`json` encoder with `ensure_ascii=True`. -/
def escChar (c : Char) : String :=
  if c = '"' then "\\\""
  else if c = '\\' then "\\\\"
  else if c = '\n' then "\\n"
  else if c = '\t' then "\\t"
  else if c = '\r' then "\\r"
  else if c.toNat = 8 then "\\b"
  else if c.toNat = 12 then "\\f"
  else if c.toNat < 0x20 ∨ 0x7e < c.toNat then uEscape c
  else String.singleton c

/-- JSON string literal for `s`. -/
def dumpStr (s : String) : String :=
  "\"" ++ String.join (s.toList.map escChar) ++ "\""

mutual
/-- `json.dumps(v)` with default separators `(", ", ": ")`. -/
def dumpVal : PyVal → String
  | .null => "null"
  | .bool b => if b then "true" else "false"
  | .int n => toString n
  | .str s => dumpStr s
  | .list xs => "[" ++ dumpArr xs ++ "]"
  | .dict es => "\x7b" ++ dumpObj es ++ "\x7d"

/-- Comma-separated rendering of JSON array elements. -/
def dumpArr : List PyVal → String
  | [] => ""
  | [x] => dumpVal x
  | x :: y :: r => dumpVal x ++ ", " ++ dumpArr (y :: r)

/-- Comma-separated rendering of JSON object members. -/
def dumpObj : List (String × PyVal) → String
  | [] => ""
  | (k, v) :: r =>
    match r with
    | [] => dumpStr k ++ ": " ++ dumpVal v
    | e :: r2 => dumpStr k ++ ": " ++ dumpVal v ++ ", " ++ dumpObj (e :: r2)
end

/-- `json.dumps(v)` (no `indent`). -/
def pyJsonDumps (v : PyVal) : String := dumpVal v

/-- `d` space characters. -/
def spaces (d : Nat) : String := String.mk (List.replicate d ' ')

mutual
/-- `json.dumps(v, indent=2)` at current indentation `d`; with an
`indent` argument the separators become `(",", ": ")` and non-empty
containers are broken across lines. -/
def dumpValI : PyVal → Nat → String
  | .null, _ => "null"
  | .bool b, _ => if b then "true" else "false"
  | .int n, _ => toString n
  | .str s, _ => dumpStr s
  | .list [], _ => "[]"
  | .list (x :: xs), d =>
    "[\n" ++ dumpArrI (x :: xs) (d + 2) ++ "\n" ++ spaces d ++ "]"
  | .dict [], _ => "\x7b\x7d"
  | .dict (e :: es), d =>
    "\x7b\n" ++ dumpObjI (e :: es) (d + 2) ++ "\n" ++ spaces d ++ "\x7d"

/-- Indented rendering of JSON array elements, one per line. -/
def dumpArrI : List PyVal → Nat → String
  | [], _ => ""
  | [x], d => spaces d ++ dumpValI x d
  | x :: y :: r, d => spaces d ++ dumpValI x d ++ ",\n" ++ dumpArrI (y :: r) d

/-- Indented rendering of JSON object members, one per line. -/
def dumpObjI : List (String × PyVal) → Nat → String
  | [], _ => ""
  | (k, v) :: r, d =>
    match r with
    | [] => spaces d ++ dumpStr k ++ ": " ++ dumpValI v d
    | e :: r2 =>
      spaces d ++ dumpStr k ++ ": " ++ dumpValI v d ++ ",\n" ++ dumpObjI (e :: r2) d
end

/-- `json.dumps(v, indent=2)`, the serialization `save_to_s3` writes. -/
def pyJsonDumpsIndent2 (v : PyVal) : String := dumpValI v 0

/-! ### Dates

The handler computes `datetime.now().strftime("%Y-%m-%d")`.
`datetime.now()` is the *local* wall-clock time: the epoch instant
shifted by the host's UTC offset.  Calendar conversion follows the
standard proleptic-Gregorian civil-from-days algorithm. -/

/-- Civil date `(year, month, day)` of a day count from 1970-01-01. -/
def civilFromDays (z : Int) : Int × Nat × Nat :=
  let z2 := z + 719468
  let era := z2.fdiv 146097
  let doe := (z2 - era * 146097).toNat
  let yoe := (doe - doe / 1460 + doe / 36524 - doe / 146096) / 365
  let doy := doe - (365 * yoe + yoe / 4 - yoe / 100)
  let mp := (5 * doy + 2) / 153
  let dayv := doy - (153 * mp + 2) / 5 + 1
  let mon := if mp < 10 then mp + 3 else mp - 9
  let yr := (yoe : Int) + era * 400
  (if mon ≤ 2 then yr + 1 else yr, mon, dayv)

/-- Zero-pad the decimal rendering of `n` to `width` digits. -/
def padNum (width n : Nat) : String :=
  let s := toString n
  if s.length < width then String.mk (List.replicate (width - s.length) '0') ++ s
  else s

/-- `strftime("%Y-%m-%d")` of the civil date of an epoch-seconds instant. -/
def strftimeYMD (secs : Int) : String :=
  let c := civilFromDays (secs.fdiv 86400)
  padNum 4 c.1.toNat ++ "-" ++ padNum 2 c.2.1 ++ "-" ++ padNum 2 c.2.2

/-! ### Environment

HTTP requests and the S3 `put_object` call are the program's only
effects; their outcomes are supplied by the environment of one run. -/

/-- A completed HTTP response: status code, raw text, decoded JSON body
(`resp.json()`), and reason phrase (used by `raise_for_status`). -/
structure HttpResp where
  status : Nat
  text : String
  body : PyVal
  reason : String

/-- Outcome of an HTTP request: either a response, or a
`requests.RequestException` (timeout, connection error) carrying its
message. -/
inductive HttpOutcome where
  | response (r : HttpResp)
  | requestException (msg : String)

/-- Module-level configuration read from the environment at import time;
`RAW_S3_BUCKET_NAME` is the only piece the claims depend on. -/
structure Config where
  bucket : String

/-- The ambient world of one `lambda_handler` invocation: the clock
(epoch seconds and the host's UTC offset, which `datetime.now` adds),
the two upstream responses, and whether `put_object` fails externally
(permissions, missing bucket, network), with the exception message. -/
structure RunEnv where
  epochSecs : Int
  tzOffsetSecs : Int
  tokenResp : HttpOutcome
  tracksResp : HttpOutcome
  putFail : Option String

/-- A stored S3 object: body bytes and content type. -/
structure S3Object where
  body : String
  contentType : String
deriving Repr, DecidableEq

/-- The S3 store: a log of `put`s, most recent first. -/
abbrev S3State := List (String × String × S3Object)

/-- `put_object`: record the object under `(bucket, key)`. -/
def s3Put (st : S3State) (bucket key body contentType : String) : S3State :=
  (bucket, key, ⟨body, contentType⟩) :: st

/-- `get_object`: the most recently put object under `(bucket, key)`. -/
def s3Get (st : S3State) (bucket key : String) : Option S3Object :=
  match st with
  | [] => none
  | (b2, k2, o) :: rest =>
    if b2 = bucket ∧ k2 = key then some o else s3Get rest bucket key

/-! ### The program -/

/-- `datetime.now().strftime("%Y-%m-%d")`: the **local** calendar date,
i.e. the epoch instant shifted by the host's UTC offset
(`lambda_function.py` line 142). -/
def today_date_of (env : RunEnv) : String :=
  strftimeYMD (env.epochSecs + env.tzOffsetSecs)

/-- `get_spotify_token` (`lambda_function.py` lines 36–67): posts to the
token endpoint; on HTTP 200 returns `auth_data[\x27access_token\x27]`
(raising `KeyError` when absent), on any other status returns the dict
`{statusCode, body}` with the upstream status and text, and on
`RequestException` returns `{statusCode: 500, body: "Request failed: …"}`. -/
def get_spotify_token (o : HttpOutcome) : Except PyExc PyVal :=
  match o with
  | .requestException m =>
    .ok (.dict [("statusCode", .int 500), ("body", .str ("Request failed: " ++ m))])
  | .response resp =>
    if resp.status = 200 then
      pySubscript resp.body "access_token"
    else
      .ok (.dict [("statusCode", .int resp.status), ("body", .str resp.text)])

/-- URL of the recently-played request including its query string, as it
appears in the `HTTPError` message built by `raise_for_status`. -/
def recentlyPlayedUrl : String :=
  "https://api.spotify.com/v1/me/player/recently-played?limit=50"

/-- The message of the `HTTPError` that `Response.raise_for_status`
raises for a 4xx or 5xx status (requests builds it from the status code,
the reason phrase and the URL — not the response body). -/
def http_error_msg (r : HttpResp) : String :=
  if r.status < 500 then
    toString r.status ++ " Client Error: " ++ r.reason ++ " for url: " ++ recentlyPlayedUrl
  else
    toString r.status ++ " Server Error: " ++ r.reason ++ " for url: " ++ recentlyPlayedUrl

/-- `get_recent_tracks` (`lambda_function.py` lines 70–95): GETs the
recently-played endpoint; `raise_for_status` raises `HTTPError` exactly
for statuses in `[400, 600)`, and any `RequestException` is re-raised as
`Exception("Failed to fetch recent tracks: …")`; otherwise the parsed
JSON body is returned unmodified. -/
def get_recent_tracks (accessToken : PyVal) (o : HttpOutcome) : Except PyExc PyVal :=
  match accessToken, o with
  | _, .requestException m =>
    .error (.exc ("Failed to fetch recent tracks: " ++ m))
  | _, .response r =>
    if 400 ≤ r.status ∧ r.status < 600 then
      .error (.exc ("Failed to fetch recent tracks: " ++ http_error_msg r))
    else
      .ok r.body

/-- The object key `save_to_s3` computes in
`get_spotify_api_data/lambda_function.py` line 111. -/
def s3Key (today_date : String) : String :=
  today_date ++ "/" ++ today_date ++ "_recent_tracks.json"

/-- The object key computed by the near-duplicate writer in
`lambda_spotify_get_user_recent_played.py` line 109. -/
def s3KeyVariant (today_date : String) : String :=
  today_date ++ "/recent_tracks.json"

/-- `save_to_s3` (`lambda_function.py` lines 98–126): writes
`json.dumps(data, indent=2)` under `s3Key today_date` with content type
`application/json`; any failure (boto3 rejects an empty bucket name, and
the environment may fail the put) is re-raised as
`Exception("Failed to save to S3: …")`; on success returns the
`{statusCode: 200, body: "Data saved to s3://…"}` dict and the new store. -/
def save_to_s3 (cfg : Config) (putFail : Option String) (st : S3State)
    (data : PyVal) (today_date : String) : Except PyExc (PyVal × S3State) :=
  let key := s3Key today_date
  if cfg.bucket = "" then
    .error (.exc "Failed to save to S3: Parameter validation failed:\nInvalid bucket name \"\": Bucket name must match the regex")
  else
    match putFail with
    | some m => .error (.exc ("Failed to save to S3: " ++ m))
    | none =>
      .ok (.dict [("statusCode", .int 200),
                  ("body", .str ("Data saved to s3://" ++ cfg.bucket ++ "/" ++ key))],
           s3Put st cfg.bucket key (pyJsonDumpsIndent2 data) "application/json")

/-- The writer of `lambda_spotify_get_user_recent_played.py` lines
96–124: identical to `save_to_s3` except for the key format. -/
def save_to_s3_variant (cfg : Config) (putFail : Option String) (st : S3State)
    (data : PyVal) (today_date : String) : Except PyExc (PyVal × S3State) :=
  let key := s3KeyVariant today_date
  if cfg.bucket = "" then
    .error (.exc "Failed to save to S3: Parameter validation failed:\nInvalid bucket name \"\": Bucket name must match the regex")
  else
    match putFail with
    | some m => .error (.exc ("Failed to save to S3: " ++ m))
    | none =>
      .ok (.dict [("statusCode", .int 200),
                  ("body", .str ("Data saved to s3://" ++ cfg.bucket ++ "/" ++ key))],
           s3Put st cfg.bucket key (pyJsonDumpsIndent2 data) "application/json")

/-- `len(recent_tracks.get(\x27items\x27, []))`, evaluated while the
handler builds the metadata dict. -/
def tracksCount (v : PyVal) : Except PyExc Nat :=
  match pyGetDefault v "items" (.list []) with
  | .error e => .error e
  | .ok items => pyLen items

/-- Python `d[k] = x` at the handler's `result[\x27metadata\x27] = …`. -/
def pySetItem (v : PyVal) (k : String) (x : PyVal) : Except PyExc PyVal :=
  match v with
  | .dict es => .ok (.dict (assocSet es k x))
  | _ => .error (.exc ("\x27" ++ pyTypeName v ++ "\x27 object does not support item assignment"))

/-- The response of the handler's top-level `except Exception` clause:
`{statusCode: 500, body: json.dumps({"error": str(e)})}`. -/
def handlerErr (e : PyExc) : PyVal :=
  .dict [("statusCode", .int 500),
         ("body", .str (pyJsonDumps (.dict [("error", .str (pyStrExc e))])))]

/-- Which collaborators a run actually invoked. -/
inductive Call where
  | fetchTracks
  | saveS3
deriving DecidableEq, Repr

/-- Result of one handler invocation: the returned Python value, the
final S3 store, and the collaborators invoked, in order. -/
structure RunResult where
  ret : PyVal
  store : S3State
  calls : List Call

/-- `lambda_handler` (`lambda_function.py` lines 129–168): computes the
date partition, gets a token, returns it at once if it is a dict
(`isinstance(access_token, dict)`), otherwise fetches recent tracks,
saves them to S3, attaches the metadata dict, and converts any raised
exception into `{statusCode: 500, body: json.dumps({"error": str(e)})}`. -/
def lambda_handler (cfg : Config) (env : RunEnv) (st : S3State) : RunResult :=
  let today_date := today_date_of env
  match get_spotify_token env.tokenResp with
  | .error e => ⟨handlerErr e, st, []⟩
  | .ok access_token =>
    if access_token.isDict then ⟨access_token, st, []⟩
    else
      match get_recent_tracks access_token env.tracksResp with
      | .error e => ⟨handlerErr e, st, [.fetchTracks]⟩
      | .ok recent_tracks =>
        match save_to_s3 cfg env.putFail st recent_tracks today_date with
        | .error e => ⟨handlerErr e, st, [.fetchTracks, .saveS3]⟩
        | .ok (result, st2) =>
          match tracksCount recent_tracks with
          | .error e => ⟨handlerErr e, st2, [.fetchTracks, .saveS3]⟩
          | .ok n =>
            match pySetItem result "metadata"
                (.dict [("date", .str today_date), ("tracks_count", .int n),
                        ("bucket", .str cfg.bucket)]) with
            | .error e => ⟨handlerErr e, st2, [.fetchTracks, .saveS3]⟩
            | .ok result2 => ⟨result2, st2, [.fetchTracks, .saveS3]⟩

/-- The current UTC date in `YYYY-MM-DD`, following the spec's words
(§3: "a string derived from the current UTC date (`YYYY-MM-DD`)"); this
is what `datetime.utcnow().strftime("%Y-%m-%d")` computes, to be
compared with the handler's `today_date_of`. -/
def specUtcDate (epochSecs : Int) : String := strftimeYMD epochSecs

/-- The token-step outcomes the orchestrator's contract enumerates:
every outcome except a 200 response whose `access_token` value is
itself a dict — the one shape the ad-hoc `isinstance` discrimination
cannot tell apart from a structured failure value. -/
def tokenOutcomeListed (o : HttpOutcome) : Bool :=
  match o with
  | .requestException _ => true
  | .response r =>
    if r.status = 200 then
      match pySubscript r.body "access_token" with
      | .ok v => !v.isDict
      | .error _ => true
    else true

/-! ### Concrete fixtures for witnesses and counterexamples -/

/-- A bucket configuration. -/
def cfgW : Config := ⟨"raw-bucket"⟩

/-- A successful token response. -/
def tokenRespW : HttpResp := ⟨200, "", .dict [("access_token", .str "tok")], "OK"⟩

/-- A recently-played payload with one item. -/
def tracksBodyW : PyVal := .dict [("items", .list [.dict []]), ("limit", .int 50)]

/-- A successful recently-played response. -/
def tracksRespW : HttpResp := ⟨200, "", tracksBodyW, "OK"⟩

/-- A fully successful run environment (2024-01-15, UTC host). -/
def envW : RunEnv := ⟨1705276800, 0, .response tokenRespW, .response tracksRespW, none⟩

/-- A second same-day payload, distinct from `tracksBodyW`. -/
def tracksBodyW2 : PyVal := .dict [("items", .list []), ("limit", .int 50)]

/-- A second successful run later on the same day 2024-01-15. -/
def envW2 : RunEnv := ⟨1705300000, 0, .response tokenRespW, .response ⟨200, "", tracksBodyW2, "OK"⟩, none⟩

/-- A run whose token response is HTTP 401. -/
def envC1 : RunEnv := ⟨0, 0, .response ⟨401, "bad token", .dict [], "Unauthorized"⟩, .response tracksRespW, none⟩

/-- A run whose token response is HTTP 200 but lacks `access_token`. -/
def envC10 : RunEnv := ⟨0, 0, .response ⟨200, "", .dict [("scope", .str "user")], "OK"⟩, .response tracksRespW, none⟩

/-- A run whose recently-played response is HTTP 304 (non-2xx, below 400). -/
def envC4 : RunEnv := ⟨0, 0, .response tokenRespW, .response ⟨304, "", .dict [], "Not Modified"⟩, none⟩

/-! ### Shared lemmas -/

/-- Reading back the object a put just stored yields its body and
content type. -/
theorem s3Get_s3Put (st : S3State) (b k body ct : String) :
    s3Get (s3Put st b k body ct) b k = some ⟨body, ct⟩ := by
  simp [s3Get, s3Put]

/-- On a fully successful run the handler's final store is the initial
store plus one object: the pretty-printed payload under the
date-partitioned key, with content type `application/json`. -/
theorem handler_success_store (cfg : Config) (env : RunEnv) (st : S3State)
    (r1 r2 : HttpResp) (tokv : PyVal)
    (h1 : env.tokenResp = .response r1) (h2 : r1.status = 200)
    (h3 : pySubscript r1.body "access_token" = .ok tokv) (h3b : tokv.isDict = false)
    (h4 : env.tracksResp = .response r2) (h5 : r2.status < 400)
    (h6 : env.putFail = none) (h7 : cfg.bucket ≠ "") :
    (lambda_handler cfg env st).store =
      s3Put st cfg.bucket (s3Key (today_date_of env))
        (pyJsonDumpsIndent2 r2.body) "application/json" := by
  have hlt : ¬ (400 ≤ r2.status) := by omega
  unfold lambda_handler
  rw [h1, h4, h6]
  simp only [get_spotify_token, h2, reduceIte, h3, h3b, Bool.false_eq_true, if_false,
    get_recent_tracks, hlt, false_and, save_to_s3, if_neg h7]
  rcases htc : tracksCount r2.body with e | n <;>
    simp [htc, pySetItem]

/-! ### Claim theorems -/

/-- C1: for every token-endpoint response with HTTP status other than
200, `get_spotify_token` returns the structured failure dict whose
`statusCode` is the upstream status and whose `body` is the upstream
response text, and `lambda_handler` returns that dict unchanged without
invoking `get_recent_tracks` or `save_to_s3` and without touching the
store. -/
theorem token_http_failure_short_circuits (cfg : Config) (env : RunEnv) (st : S3State)
    (r : HttpResp) (hresp : env.tokenResp = .response r) (hne : r.status ≠ 200) :
    get_spotify_token env.tokenResp =
      .ok (.dict [("statusCode", .int r.status), ("body", .str r.text)]) ∧
    (lambda_handler cfg env st).ret =
      .dict [("statusCode", .int r.status), ("body", .str r.text)] ∧
    (lambda_handler cfg env st).calls = [] ∧
    (lambda_handler cfg env st).store = st := by
  have htok : get_spotify_token env.tokenResp =
      .ok (.dict [("statusCode", .int r.status), ("body", .str r.text)]) := by
    rw [hresp]; simp [get_spotify_token, hne]
  refine ⟨htok, ?_, ?_, ?_⟩ <;>
    · unfold lambda_handler
      rw [htok]
      simp [PyVal.isDict]

/-- Witness for C1 at a concrete 401 token response. -/
theorem token_http_failure_short_circuits_witness :
    envC1.tokenResp = .response ⟨401, "bad token", .dict [], "Unauthorized"⟩ ∧
    (401 : Nat) ≠ 200 ∧
    (get_spotify_token envC1.tokenResp =
       .ok (.dict [("statusCode", .int 401), ("body", .str "bad token")]) ∧
     (lambda_handler cfgW envC1 []).ret =
       .dict [("statusCode", .int 401), ("body", .str "bad token")] ∧
     (lambda_handler cfgW envC1 []).calls = [] ∧
     (lambda_handler cfgW envC1 []).store = []) :=
  ⟨rfl, by decide,
   token_http_failure_short_circuits cfgW envC1 []
     ⟨401, "bad token", .dict [], "Unauthorized"⟩ rfl (by decide)⟩

/-- C2: on every fully successful run, the stored object read back from
the store is byte-for-byte `json.dumps(payload, indent=2)` of the
payload `get_recent_tracks` returned, with content type
`application/json`. -/
theorem success_stores_pretty_json (cfg : Config) (env : RunEnv) (st : S3State)
    (r1 r2 : HttpResp) (tokv : PyVal)
    (h1 : env.tokenResp = .response r1) (h2 : r1.status = 200)
    (h3 : pySubscript r1.body "access_token" = .ok tokv) (h3b : tokv.isDict = false)
    (h4 : env.tracksResp = .response r2) (h5 : r2.status < 400)
    (h6 : env.putFail = none) (h7 : cfg.bucket ≠ "") :
    get_recent_tracks tokv env.tracksResp = .ok r2.body ∧
    s3Get (lambda_handler cfg env st).store cfg.bucket (s3Key (today_date_of env)) =
      some ⟨pyJsonDumpsIndent2 r2.body, "application/json"⟩ := by
  have hlt : ¬ (400 ≤ r2.status) := by omega
  constructor
  · rw [h4]; simp [get_recent_tracks, hlt]
  · rw [handler_success_store cfg env st r1 r2 tokv h1 h2 h3 h3b h4 h5 h6 h7]
    exact s3Get_s3Put st cfg.bucket (s3Key (today_date_of env))
      (pyJsonDumpsIndent2 r2.body) "application/json"

/-- Witness for C2 on the concrete successful run `envW`. -/
theorem success_stores_pretty_json_witness :
    envW.tokenResp = .response tokenRespW ∧
    tokenRespW.status = 200 ∧
    pySubscript tokenRespW.body "access_token" = .ok (.str "tok") ∧
    (PyVal.str "tok").isDict = false ∧
    envW.tracksResp = .response tracksRespW ∧
    tracksRespW.status < 400 ∧
    envW.putFail = none ∧
    cfgW.bucket ≠ "" ∧
    (get_recent_tracks (.str "tok") envW.tracksResp = .ok tracksRespW.body ∧
     s3Get (lambda_handler cfgW envW []).store cfgW.bucket (s3Key (today_date_of envW)) =
       some ⟨pyJsonDumpsIndent2 tracksRespW.body, "application/json"⟩) :=
  ⟨rfl, rfl, rfl, rfl, rfl, by decide, rfl, by decide,
   success_stores_pretty_json cfgW envW [] tokenRespW tracksRespW (.str "tok")
     rfl rfl rfl rfl rfl (by decide) rfl (by decide)⟩

/-- C8: a 200 token response whose JSON body maps `access_token` to the
string `s` makes `get_spotify_token` return exactly `s` as a plain
string. -/
theorem token_200_returns_access_token (r : HttpResp)
    (es : List (String × PyVal)) (s : String)
    (h200 : r.status = 200) (hb : r.body = .dict es)
    (hget : assocGet es "access_token" = some (.str s)) :
    get_spotify_token (.response r) = .ok (.str s) := by
  simp [get_spotify_token, h200, pySubscript, hb, hget]

/-- Witness for C8 at the concrete token response `tokenRespW`. -/
theorem token_200_returns_access_token_witness :
    tokenRespW.status = 200 ∧
    tokenRespW.body = .dict [("access_token", .str "tok")] ∧
    assocGet [("access_token", .str "tok")] "access_token" = some (.str "tok") ∧
    get_spotify_token (.response tokenRespW) = .ok (.str "tok") :=
  ⟨rfl, rfl, rfl,
   token_200_returns_access_token tokenRespW [("access_token", .str "tok")] "tok"
     rfl rfl rfl⟩

/-- C9: a network-level failure of the token request makes
`get_spotify_token` return — not raise — the structured failure dict
with fixed `statusCode` 500 and a body embedding the underlying error
text. -/
theorem token_network_failure_returns_500 (m : String) :
    get_spotify_token (.requestException m) =
      .ok (.dict [("statusCode", .int 500), ("body", .str ("Request failed: " ++ m))]) ∧
    ∀ e, get_spotify_token (.requestException m) ≠ .error e := by
  refine ⟨rfl, fun e h => ?_⟩
  simp [get_spotify_token] at h

/-- C10: a 200 token response whose JSON object body lacks
`access_token` makes `get_spotify_token` raise `KeyError` (its `except`
clause catches only `RequestException`), and the handler's top-level
catch-all converts it into `statusCode` 500 with the JSON-encoded error
body — not the structured token-failure shape. -/
theorem token_missing_key_raises_keyerror (cfg : Config) (env : RunEnv) (st : S3State)
    (r : HttpResp) (es : List (String × PyVal))
    (h : env.tokenResp = .response r) (h200 : r.status = 200)
    (hb : r.body = .dict es)
    (hnone : assocGet es "access_token" = none) :
    get_spotify_token env.tokenResp = .error (.keyError "access_token") ∧
    (lambda_handler cfg env st).ret =
      .dict [("statusCode", .int 500),
             ("body", .str "\x7b\"error\": \"\x27access_token\x27\"\x7d")] ∧
    (lambda_handler cfg env st).calls = [] ∧
    (lambda_handler cfg env st).store = st := by
  have htok : get_spotify_token env.tokenResp = .error (.keyError "access_token") := by
    rw [h]; simp [get_spotify_token, h200, pySubscript, hb, hnone]
  have hbody : handlerErr (.keyError "access_token") =
      .dict [("statusCode", .int 500),
             ("body", .str "\x7b\"error\": \"\x27access_token\x27\"\x7d")] := by
    rfl
  have hrun : lambda_handler cfg env st = ⟨handlerErr (.keyError "access_token"), st, []⟩ := by
    unfold lambda_handler
    rw [htok]
  exact ⟨htok, by rw [hrun]; exact hbody, by rw [hrun], by rw [hrun]⟩

/-- Witness for C10 at the concrete no-token 200 response of `envC10`. -/
theorem token_missing_key_raises_keyerror_witness :
    envC10.tokenResp = .response ⟨200, "", .dict [("scope", .str "user")], "OK"⟩ ∧
    (200 : Nat) = 200 ∧
    (HttpResp.mk 200 "" (.dict [("scope", .str "user")]) "OK").body =
      .dict [("scope", .str "user")] ∧
    assocGet [("scope", .str "user")] "access_token" = none ∧
    (get_spotify_token envC10.tokenResp = .error (.keyError "access_token") ∧
     (lambda_handler cfgW envC10 []).ret =
       .dict [("statusCode", .int 500),
              ("body", .str "\x7b\"error\": \"\x27access_token\x27\"\x7d")] ∧
     (lambda_handler cfgW envC10 []).calls = [] ∧
     (lambda_handler cfgW envC10 []).store = []) :=
  ⟨rfl, rfl, rfl, rfl,
   token_missing_key_raises_keyerror cfgW envC10 []
     ⟨200, "", .dict [("scope", .str "user")], "OK"⟩ [("scope", .str "user")]
     rfl rfl rfl rfl⟩

/-- C3 counterexample: the claim is false of the near-duplicate writer
in `lambda_spotify_get_user_recent_played.py`: invoked with partition
key `2024-01-15` it stores the object at
`2024-01-15/recent_tracks.json`, and nothing sits at the claimed key
`2024-01-15/2024-01-15_recent_tracks.json`. -/
theorem writer_variant_key_counterexample :
    save_to_s3_variant ⟨"raw-bucket"⟩ none [] (.dict []) "2024-01-15" =
      .ok (.dict [("statusCode", .int 200),
                  ("body", .str "Data saved to s3://raw-bucket/2024-01-15/recent_tracks.json")],
           [("raw-bucket", "2024-01-15/recent_tracks.json", ⟨"\x7b\x7d", "application/json"⟩)]) ∧
    s3KeyVariant "2024-01-15" ≠ "2024-01-15/2024-01-15_recent_tracks.json" ∧
    s3Get [("raw-bucket", "2024-01-15/recent_tracks.json",
            (⟨"\x7b\x7d", "application/json"⟩ : S3Object))]
      "raw-bucket" "2024-01-15/2024-01-15_recent_tracks.json" = none := by
  refine ⟨rfl, by decide, ?_⟩
  simp [s3Get]

/-- C3 amended: the writer of `get_spotify_api_data/lambda_function.py`
computes the storage key as `<d>/<d>_recent_tracks.json` for every date
string `d`, while the near-duplicate writer of
`lambda_spotify_get_user_recent_played.py` computes
`<d>/recent_tracks.json`. -/
theorem writer_key_formats (cfg : Config) (putFail : Option String) (st : S3State)
    (data : PyVal) (d : String) (hp : putFail = none) (hb : cfg.bucket ≠ "") :
    s3Key d = d ++ "/" ++ d ++ "_recent_tracks.json" ∧
    (∃ res, save_to_s3 cfg putFail st data d =
      .ok (res, s3Put st cfg.bucket (d ++ "/" ++ d ++ "_recent_tracks.json")
                  (pyJsonDumpsIndent2 data) "application/json")) ∧
    s3KeyVariant d = d ++ "/recent_tracks.json" ∧
    (∃ res, save_to_s3_variant cfg putFail st data d =
      .ok (res, s3Put st cfg.bucket (d ++ "/recent_tracks.json")
                  (pyJsonDumpsIndent2 data) "application/json")) := by
  subst hp
  refine ⟨rfl,
    ⟨.dict [("statusCode", .int 200),
            ("body", .str ("Data saved to s3://" ++ cfg.bucket ++ "/" ++ s3Key d))], ?_⟩,
    rfl,
    ⟨.dict [("statusCode", .int 200),
            ("body", .str ("Data saved to s3://" ++ cfg.bucket ++ "/" ++ s3KeyVariant d))], ?_⟩⟩ <;>
    simp [save_to_s3, save_to_s3_variant, s3Key, s3KeyVariant, hb]

/-- Witness for C3's amended claim at partition key `2024-01-15`. -/
theorem writer_key_formats_witness :
    (none : Option String) = none ∧
    cfgW.bucket ≠ "" ∧
    (s3Key "2024-01-15" = "2024-01-15" ++ "/" ++ "2024-01-15" ++ "_recent_tracks.json" ∧
     (∃ res, save_to_s3 cfgW none [] tracksBodyW "2024-01-15" =
       .ok (res, s3Put [] cfgW.bucket
                   ("2024-01-15" ++ "/" ++ "2024-01-15" ++ "_recent_tracks.json")
                   (pyJsonDumpsIndent2 tracksBodyW) "application/json")) ∧
     s3KeyVariant "2024-01-15" = "2024-01-15" ++ "/recent_tracks.json" ∧
     (∃ res, save_to_s3_variant cfgW none [] tracksBodyW "2024-01-15" =
       .ok (res, s3Put [] cfgW.bucket ("2024-01-15" ++ "/recent_tracks.json")
                   (pyJsonDumpsIndent2 tracksBodyW) "application/json"))) :=
  ⟨rfl, by decide,
   writer_key_formats cfgW none [] tracksBodyW "2024-01-15" rfl (by decide)⟩

/-- C4 counterexample: a non-2xx recently-played response is not enough
to make `get_recent_tracks` raise — `raise_for_status` only raises for
statuses in `[400, 600)`.  At the HTTP 304 response of `envC4` the
fetcher returns the body as a success, and the run goes on to invoke
`save_to_s3` and write the object. -/
theorem fetch_non2xx_counterexample :
    get_recent_tracks (.str "tok") (.response ⟨304, "", .dict [], "Not Modified"⟩) =
      .ok (.dict []) ∧
    (∀ e, get_recent_tracks (.str "tok")
        (.response ⟨304, "", .dict [], "Not Modified"⟩) ≠ .error e) ∧
    (lambda_handler cfgW envC4 []).calls = [.fetchTracks, .saveS3] ∧
    s3Get (lambda_handler cfgW envC4 []).store "raw-bucket"
        (s3Key "1970-01-01") = some ⟨"\x7b\x7d", "application/json"⟩ := by
  refine ⟨rfl, fun e h => ?_, rfl, rfl⟩
  simp [get_recent_tracks, http_error_msg] at h

/-- C4 amended: for every recently-played response with status in
`[400, 600)` — the statuses `raise_for_status` treats as errors —
`get_recent_tracks` raises the generic failure wrapping the upstream
error text, and no storage write occurs: `save_to_s3` is never invoked
and the store is unchanged, whatever the token step did. -/
theorem fetch_4xx5xx_raises_no_write (cfg : Config) (env : RunEnv) (st : S3State)
    (tokv : PyVal) (r : HttpResp)
    (h4 : env.tracksResp = .response r) (hlo : 400 ≤ r.status) (hhi : r.status < 600) :
    get_recent_tracks tokv env.tracksResp =
      .error (.exc ("Failed to fetch recent tracks: " ++ http_error_msg r)) ∧
    Call.saveS3 ∉ (lambda_handler cfg env st).calls ∧
    (lambda_handler cfg env st).store = st := by
  have hfetch : ∀ tv : PyVal, get_recent_tracks tv env.tracksResp =
      .error (.exc ("Failed to fetch recent tracks: " ++ http_error_msg r)) := by
    intro tv
    rw [h4]
    simp [get_recent_tracks, hlo, hhi]
  refine ⟨hfetch tokv, ?_, ?_⟩ <;>
    · unfold lambda_handler
      rcases get_spotify_token env.tokenResp with e | v
      · simp
      · by_cases hd : v.isDict = true <;> simp [hd, hfetch v]

/-- Witness for C4's amended claim at a concrete 404 recently-played
response. -/
theorem fetch_4xx5xx_raises_no_write_witness :
    (RunEnv.mk 0 0 (.response tokenRespW) (.response ⟨404, "nf", .dict [], "Not Found"⟩)
        none).tracksResp = .response ⟨404, "nf", .dict [], "Not Found"⟩ ∧
    (400 : Nat) ≤ 404 ∧ (404 : Nat) < 600 ∧
    (get_recent_tracks (.str "tok")
        (RunEnv.mk 0 0 (.response tokenRespW)
          (.response ⟨404, "nf", .dict [], "Not Found"⟩) none).tracksResp =
      .error (.exc ("Failed to fetch recent tracks: " ++
        http_error_msg ⟨404, "nf", .dict [], "Not Found"⟩)) ∧
     Call.saveS3 ∉ (lambda_handler cfgW
        (RunEnv.mk 0 0 (.response tokenRespW)
          (.response ⟨404, "nf", .dict [], "Not Found"⟩) none) []).calls ∧
     (lambda_handler cfgW
        (RunEnv.mk 0 0 (.response tokenRespW)
          (.response ⟨404, "nf", .dict [], "Not Found"⟩) none) []).store = []) :=
  ⟨rfl, by decide, by decide,
   fetch_4xx5xx_raises_no_write cfgW
     (RunEnv.mk 0 0 (.response tokenRespW) (.response ⟨404, "nf", .dict [], "Not Found"⟩) none)
     [] (.str "tok") ⟨404, "nf", .dict [], "Not Found"⟩ rfl (by decide) (by decide)⟩

/-- C5 counterexample: the handler's step-1 partition key comes from
`datetime.now()`, the local clock, not UTC.  One second before midnight
UTC on 1970-01-01, a host one hour east of UTC yields partition key
`1970-01-02` while the current UTC date is `1970-01-01`. -/
theorem partition_key_not_utc_counterexample :
    today_date_of ⟨86399, 3600, .requestException "x", .requestException "x", none⟩ =
      "1970-01-02" ∧
    specUtcDate 86399 = "1970-01-01" ∧
    today_date_of ⟨86399, 3600, .requestException "x", .requestException "x", none⟩ ≠
      specUtcDate 86399 := by
  refine ⟨rfl, rfl, by decide⟩

/-- C5 amended: the partition key computed in step 1 of the handler is
the current **local** date formatted `YYYY-MM-DD` (the epoch instant
shifted by the host's UTC offset); it equals the current UTC date
exactly when the host clock's UTC offset is zero, as in the AWS Lambda
runtime. -/
theorem partition_key_local_date (env : RunEnv) (h : env.tzOffsetSecs = 0) :
    today_date_of env = strftimeYMD (env.epochSecs + env.tzOffsetSecs) ∧
    today_date_of env = specUtcDate env.epochSecs := by
  refine ⟨rfl, ?_⟩
  unfold today_date_of specUtcDate
  rw [h, add_zero]

/-- Witness for C5's amended claim on the UTC-host run `envW`. -/
theorem partition_key_local_date_witness :
    envW.tzOffsetSecs = 0 ∧
    (today_date_of envW = strftimeYMD (envW.epochSecs + envW.tzOffsetSecs) ∧
     today_date_of envW = specUtcDate envW.epochSecs) :=
  ⟨rfl, partition_key_local_date envW rfl⟩

/-- C6: for every input and every outcome of the collaborators the
orchestrator's contract enumerates — token success (a bearer value that
is not a dict), structured token failure, raised token `KeyError`,
raised fetch failure, raised storage failure, or full success — the
handler returns a dict containing the `statusCode` key; no exception
escapes. -/
theorem handler_result_has_statusCode (cfg : Config) (env : RunEnv) (st : S3State)
    (htok : tokenOutcomeListed env.tokenResp = true) :
    ((lambda_handler cfg env st).ret).hasKey "statusCode" = true := by
  unfold lambda_handler
  rcases henv : env.tokenResp with r | m
  · rw [henv] at htok
    simp only [tokenOutcomeListed] at htok
    by_cases h200 : r.status = 200
    · rcases hsub : pySubscript r.body "access_token" with e | v
      · simp [get_spotify_token, h200, hsub, handlerErr, PyVal.hasKey, assocGet]
      · rw [if_pos h200, hsub] at htok
        simp only [Bool.not_eq_true'] at htok
        simp only [get_spotify_token, if_pos h200, hsub, htok, Bool.false_eq_true, if_false]
        rcases hf : get_recent_tracks v env.tracksResp with e | tr
        · simp [hf, handlerErr, PyVal.hasKey, assocGet]
        · rcases hs : save_to_s3 cfg env.putFail st tr (today_date_of env) with e | p
          · simp [hf, hs, handlerErr, PyVal.hasKey, assocGet]
          · obtain ⟨res, st2⟩ := p
            have hres : res = .dict [("statusCode", .int 200),
                ("body", .str ("Data saved to s3://" ++ cfg.bucket ++ "/" ++
                  s3Key (today_date_of env)))] := by
              unfold save_to_s3 at hs
              by_cases hb : cfg.bucket = "" <;> simp [hb] at hs
              rcases hp : env.putFail with _ | m2 <;> rw [hp] at hs <;> simp at hs
              exact hs.1.symm
            rcases htc : tracksCount tr with e | n
            · simp [hf, hs, htc, handlerErr, PyVal.hasKey, assocGet]
            · simp [hf, hs, htc, hres, pySetItem, assocSet, PyVal.hasKey, assocGet]
    · simp [get_spotify_token, h200, PyVal.isDict, PyVal.hasKey, assocGet]
  · simp [get_spotify_token, PyVal.isDict, PyVal.hasKey, assocGet]

/-- Witness for C6 on the concrete successful run `envW`. -/
theorem handler_result_has_statusCode_witness :
    tokenOutcomeListed envW.tokenResp = true ∧
    ((lambda_handler cfgW envW []).ret).hasKey "statusCode" = true :=
  ⟨rfl, handler_result_has_statusCode cfgW envW [] rfl⟩

/-- C7: the storage key is a function of the calendar date alone, so two
successive successful runs on the same day write to the same key and the
second run's object overwrites the first: reading the key back after the
second run yields the second payload. -/
theorem same_day_second_run_overwrites (cfg : Config) (env1 env2 : RunEnv) (st : S3State)
    (ra1 ra2 rb1 rb2 : HttpResp) (tok1 tok2 : PyVal)
    (hday : today_date_of env1 = today_date_of env2)
    (a1 : env1.tokenResp = .response ra1) (a2 : ra1.status = 200)
    (a3 : pySubscript ra1.body "access_token" = .ok tok1) (a4 : tok1.isDict = false)
    (a5 : env1.tracksResp = .response ra2) (a6 : ra2.status < 400)
    (a7 : env1.putFail = none)
    (b1 : env2.tokenResp = .response rb1) (b2 : rb1.status = 200)
    (b3 : pySubscript rb1.body "access_token" = .ok tok2) (b4 : tok2.isDict = false)
    (b5 : env2.tracksResp = .response rb2) (b6 : rb2.status < 400)
    (b7 : env2.putFail = none)
    (hb : cfg.bucket ≠ "") :
    s3Key (today_date_of env1) = s3Key (today_date_of env2) ∧
    (lambda_handler cfg env1 st).store =
      s3Put st cfg.bucket (s3Key (today_date_of env1))
        (pyJsonDumpsIndent2 ra2.body) "application/json" ∧
    s3Get (lambda_handler cfg env2 (lambda_handler cfg env1 st).store).store
        cfg.bucket (s3Key (today_date_of env1)) =
      some ⟨pyJsonDumpsIndent2 rb2.body, "application/json"⟩ := by
  refine ⟨by rw [hday], ?_, ?_⟩
  · exact handler_success_store cfg env1 st ra1 ra2 tok1 a1 a2 a3 a4 a5 a6 a7 hb
  · rw [handler_success_store cfg env2 _ rb1 rb2 tok2 b1 b2 b3 b4 b5 b6 b7 hb, hday]
    exact s3Get_s3Put _ cfg.bucket (s3Key (today_date_of env2))
      (pyJsonDumpsIndent2 rb2.body) "application/json"

/-- Witness for C7: the two concrete same-day runs `envW` and `envW2`,
after which the stored object is the second payload. -/
theorem same_day_second_run_overwrites_witness :
    today_date_of envW = today_date_of envW2 ∧
    cfgW.bucket ≠ "" ∧
    (s3Key (today_date_of envW) = s3Key (today_date_of envW2) ∧
     (lambda_handler cfgW envW []).store =
       s3Put [] cfgW.bucket (s3Key (today_date_of envW))
         (pyJsonDumpsIndent2 tracksBodyW) "application/json" ∧
     s3Get (lambda_handler cfgW envW2 (lambda_handler cfgW envW []).store).store
         cfgW.bucket (s3Key (today_date_of envW)) =
       some ⟨pyJsonDumpsIndent2 tracksBodyW2, "application/json"⟩) :=
  ⟨rfl, by decide,
   same_day_second_run_overwrites cfgW envW envW2 []
     tokenRespW tracksRespW tokenRespW ⟨200, "", tracksBodyW2, "OK"⟩
     (.str "tok") (.str "tok") rfl rfl rfl rfl rfl rfl (by decide) rfl
     rfl rfl rfl rfl rfl (by decide) rfl (by decide)⟩

end SpotifyLambda
